import Mathlib

/-!
Shallow embedding of `lib/ansible/modules/network/bigswitch/bigmon_policy.py`.

The module's whole logic is the function `policy(module)` plus the `main`
wrapper that catches stray exceptions.  We embed it as a pure function from
the module parameters and an environment (the `BIGSWITCH_ACCESS_TOKEN`
environment variable and the HTTP responses the controller would return) to
a run result together with the trace of REST-client events the run performs.

Python dynamic values that can appear in parsed JSON bodies are modelled by
the inductive `Json`; dictionary subscription that can raise `KeyError` or
`TypeError` is modelled in the `Except PyExn` monad, and an exception that
escapes `policy` is caught by `main`, which turns it into a generic
`fail_json(msg=str(e))`.
-/

namespace Bigmon

/-- A parsed JSON value as Python sees it (`response.json`). -/
inductive Json where
  | null
  | bool (b : Bool)
  | int (n : Int)
  | str (s : String)
  | arr (elems : List Json)
  | obj (fields : List (String × Json))

/-- The module parameters (`module.params`).  `argument_spec` gives
`policy_description` the default `""`, `action` the default `"forward"`,
`priority` 100, `duration` 0, `delivery_packet_count` 0, `state`
`"present"`; `name` and `access_token` have no default and may be absent. -/
structure Params where
  access_token : Option String
  name : Option String
  policy_description : String
  action : String
  priority : Int
  duration : Int
  start_time : String
  delivery_packet_count : Int
  state : String
  controller : String

/-- Python exceptions that the embedded code can raise. -/
inductive PyExn where
  | keyError (key : String)
  | typeError (msg : String)
deriving DecidableEq

/-- Python 2 `str(e)` for the exceptions we model: `str(KeyError(k))` is the
`repr` of the key, `str(TypeError(m))` is the message. -/
def PyExn.toStr : PyExn → String
  | .keyError k => "\x27" ++ k ++ "\x27"
  | .typeError m => m

/-- An HTTP response as the `Rest` collaborator returns it: a status code
and the parsed JSON body. -/
structure Response where
  status_code : Int
  json : Json

/-- The ambient world of one invocation: the environment variable
`BIGSWITCH_ACCESS_TOKEN` (if set) and the responses the controller would
give to the one `get`, the one `put` and the one `delete` the code can
possibly issue. -/
structure Env where
  bigswitchToken : Option String
  getResponse : Response
  putResponse : Response
  deleteResponse : Response

/-- Observable REST-client events, in program order: construction of the
`Rest` object and the HTTP calls it performs. -/
inductive Event where
  | restConstruct
  | get (path : String)
  | put (path : String) (data : Json)
  | delete (path : String)

/-- The kind of an event, forgetting paths and payloads. -/
inductive EventKind where
  | restK
  | getK
  | putK
  | deleteK
deriving DecidableEq

def Event.kind : Event → EventKind
  | .restConstruct => .restK
  | .get _ => .getK
  | .put _ _ => .putK
  | .delete _ => .deleteK

/-- `put` and `delete` are the mutating HTTP calls. -/
def Event.isMutating : Event → Bool
  | .put _ _ => true
  | .delete _ => true
  | _ => false

/-- The mutating HTTP calls of a trace. -/
def mutatingCalls (t : List Event) : List Event :=
  t.filter Event.isMutating

/-- How one invocation of `policy` ends: `module.exit_json(changed=...)`,
`module.fail_json(msg=...)`, an exception escaping to `main`, or `policy`
falling off the end of the function body without exiting. -/
inductive RunResult where
  | exitJson (changed : Bool)
  | failJson (msg : String)
  | exn (e : PyExn)
  | fellThrough

/-- Line 128: `module.params[\x27access_token\x27] or
os.environ[\x27BIGSWITCH_ACCESS_TOKEN\x27]`.  A falsy parameter (absent, i.e.
`None`, or the empty string) falls back to the environment variable; an
unset variable raises `KeyError`, modelled as `.error ()`. -/
def resolveToken (tok : Option String) (envTok : Option String) : Except Unit String :=
  match tok with
  | some t =>
    if t = "" then
      match envTok with
      | some v => Except.ok v
      | none => Except.error ()
    else Except.ok t
  | none =>
    match envTok with
    | some v => Except.ok v
    | none => Except.error ()

/-- Python subscription `j[k]` for a string key: a dict yields the value
(or raises `KeyError`), anything else raises `TypeError`. -/
def jsonGet (j : Json) (k : String) : Except PyExn Json :=
  match j with
  | .obj fields =>
    match fields.find? (fun q => q.1 == k) with
    | some q => Except.ok q.2
    | none => Except.error (.keyError k)
  | _ => Except.error (.typeError "value cannot be indexed by a string key")

/-- Python `==` between a JSON value and a Python `str`. -/
def pyEqStr (j : Json) (s : String) : Bool :=
  match j with
  | .str t => t == s
  | _ => false

/-- Python `==` between a JSON value and a Python `int` (Python booleans
compare equal to 0 and 1). -/
def pyEqInt (j : Json) (n : Int) : Bool :=
  match j with
  | .int m => m == n
  | .bool b => (if b then (1 : Int) else 0) == n
  | _ => false

/-- Lines 157-162: the comprehension filter.  `and` short-circuits, so keys
are consulted left to right — name, duration, delivery-packet-count,
policy-description, action, priority — and a missing key raises only when
all earlier comparisons succeeded. -/
def recMatches (name : String) (duration delivery_packet_count : Int)
    (policy_description action : String) (priority : Int) (rec : Json) :
    Except PyExn Bool :=
  match jsonGet rec "name" with
  | .error e => .error e
  | .ok v =>
    if !pyEqStr v name then .ok false else
    match jsonGet rec "duration" with
    | .error e => .error e
    | .ok v =>
      if !pyEqInt v duration then .ok false else
      match jsonGet rec "delivery-packet-count" with
      | .error e => .error e
      | .ok v =>
        if !pyEqInt v delivery_packet_count then .ok false else
        match jsonGet rec "policy-description" with
        | .error e => .error e
        | .ok v =>
          if !pyEqStr v policy_description then .ok false else
          match jsonGet rec "action" with
          | .error e => .error e
          | .ok v =>
            if !pyEqStr v action then .ok false else
            match jsonGet rec "priority" with
            | .error e => .error e
            | .ok v => .ok (pyEqInt v priority)

/-- Lines 156-162: `matching = [policy for policy in response.json if ...]`.
Elements are examined in order; the first exception aborts the whole
comprehension. -/
def matchingList (name : String) (duration delivery_packet_count : Int)
    (policy_description action : String) (priority : Int) :
    List Json → Except PyExn (List Json)
  | [] => .ok []
  | r :: rs =>
    match recMatches name duration delivery_packet_count policy_description action priority r with
    | .error e => .error e
    | .ok b =>
      match matchingList name duration delivery_packet_count policy_description action priority rs with
      | .error e => .error e
      | .ok rest => .ok (if b then r :: rest else rest)

/-- Python iteration `for policy in response.json`: a list yields its
elements, a dict its keys, a string its characters; other values raise
`TypeError`. -/
def jsonElems (j : Json) : Except PyExn (List Json)  :=
  match j with
  | .arr xs => .ok xs
  | .obj fields => .ok (fields.map (fun q => Json.str q.1))
  | .str s => .ok (s.data.map (fun c => Json.str (String.mk [c])))
  | _ => .error (.typeError "object is not iterable")

/-- Lines 174-176: the body sent by the upsert, in source order. -/
def putData (name action policy_description : String) (priority duration : Int)
    (start_time : String) (delivery_packet_count : Int) : List (String × Json) :=
  [("name", Json.str name), ("action", Json.str action),
   ("policy-description", Json.str policy_description),
   ("priority", Json.int priority), ("duration", Json.int duration),
   ("start-time", Json.str start_time),
   ("delivery-packet-count", Json.int delivery_packet_count)]

def charsPrefixEq : List Char → List Char → Bool
  | [], _ => true
  | _ :: _, [] => false
  | x :: xs, y :: ys => x == y && charsPrefixEq xs ys

def charsContains (needle : List Char) : List Char → Bool
  | [] => charsPrefixEq needle []
  | c :: rest => charsPrefixEq needle (c :: rest) || charsContains needle rest

/-- Python `sub in s` on strings is substring containment: the code writes
`state in (\x27present\x27)`, and `(\x27present\x27)` is a plain string, not
a tuple. -/
def pyIn (sub s : String) : Bool := charsContains sub.data s.data

mutual

/-- Python 2 `repr()` of a JSON value. -/
def pyRepr : Json → String
  | .str s => "\x27" ++ s ++ "\x27"
  | .null => "None"
  | .bool b => if b then "True" else "False"
  | .int n => toString n
  | .arr es => "[" ++ pyReprList es ++ "]"
  | .obj fs => "\x7b" ++ pyReprFields fs ++ "\x7d"

def pyReprList : List Json → String
  | [] => ""
  | [e] => pyRepr e
  | e :: es => pyRepr e ++ ", " ++ pyReprList es

def pyReprFields : List (String × Json) → String
  | [] => ""
  | [(k, v)] => "\x27" ++ k ++ "\x27: " ++ pyRepr v
  | (k, v) :: fs => "\x27" ++ k ++ "\x27: " ++ pyRepr v ++ ", " ++ pyReprFields fs

end

/-- Python 2 `str()` of a JSON value, used where the code interpolates the
remote `description` into a failure message (`str` of a string is the
string itself; containers render via `repr` of their elements). -/
def pyStr : Json → String
  | .str s => s
  | j => pyRepr j

/-- The fetched trace common to every run that performs the listing. -/
def fetchTrace : List Event := [Event.restConstruct, Event.get "policy?config=true"]

/-- Lines 126-189: the function `policy(module)`, as a pure function from
the parameters and the ambient world to the run result and the trace of
REST-client events. -/
def policy (p : Params) (env : Env) : RunResult × List Event :=
  match resolveToken p.access_token env.bigswitchToken with
  | .error _ => (.failJson "Unable to load BIGSWITCH_ACCESS_TOKEN", [])
  | .ok _ =>
    match p.name with
    | none => (.failJson "parameter `name` is missing", [Event.restConstruct])
    | some name =>
      let resp := env.getResponse
      if resp.status_code ≠ 200 then
        match jsonGet resp.json "description" with
        | .ok d =>
          (.failJson ("failed to obtain existing policy config: " ++ pyStr d), fetchTrace)
        | .error e => (.exn e, fetchTrace)
      else
        match jsonElems resp.json with
        | .error e => (.exn e, fetchTrace)
        | .ok recs =>
          match matchingList name p.duration p.delivery_packet_count
              p.policy_description p.action p.priority recs with
          | .error e => (.exn e, fetchTrace)
          | .ok matching =>
            let config_present := !matching.isEmpty
            if pyIn p.state "present" && config_present then
              (.exitJson false, fetchTrace)
            else if pyIn p.state "absent" && !config_present then
              (.exitJson false, fetchTrace)
            else if pyIn p.state "present" then
              let data : Json := .obj (putData name p.action p.policy_description
                p.priority p.duration p.start_time p.delivery_packet_count)
              let trace2 := fetchTrace ++ [Event.put ("policy[name=\"" ++ name ++ "\"]") data]
              if env.putResponse.status_code = 204 then
                (.exitJson true, trace2)
              else
                match jsonGet env.putResponse.json "description" with
                | .ok d =>
                  (.failJson ("error creating policy \x27" ++ name ++ "\x27: " ++ pyStr d), trace2)
                | .error e => (.exn e, trace2)
            else if pyIn p.state "absent" then
              let trace2 := fetchTrace ++ [Event.delete ("policy[name=\"" ++ name ++ "\"]")]
              if env.deleteResponse.status_code = 204 then
                (.exitJson true, trace2)
              else
                match jsonGet env.deleteResponse.json "description" with
                | .ok d =>
                  (.failJson ("error deleting policy \x27" ++ name ++ "\x27: " ++ pyStr d), trace2)
                | .error e => (.exn e, trace2)
            else
              (.fellThrough, fetchTrace)

/-- Lines 208-212: `main` calls `policy` under `try/except Exception` and
turns an escaped exception into `fail_json(msg=str(e))`.  (`exit_json` and
`fail_json` raise `SystemExit`, which `except Exception` does not catch.) -/
def mainRun (p : Params) (env : Env) : RunResult × List Event :=
  match policy p env with
  | (.exn e, t) => (.failJson (PyExn.toStr e), t)
  | r => r

/-! ### Helper lemmas -/

theorem pyIn_present_present : pyIn "present" "present" = true := by decide

theorem pyIn_absent_present : pyIn "absent" "present" = false := by decide

theorem pyIn_present_absent : pyIn "present" "absent" = false := by decide

theorem pyIn_absent_absent : pyIn "absent" "absent" = true := by decide

/-- The record pushed by the upsert matches the desired record that
produced it. -/
theorem recMatches_putData (n a ds : String) (pr dur : Int) (st : String) (dpc : Int) :
    recMatches n dur dpc ds a pr (Json.obj (putData n a ds pr dur st dpc)) = Except.ok true := by
  simp [recMatches, putData, jsonGet, pyEqStr, pyEqInt, List.find?]

/-- The comprehension distributes over list append when both halves
evaluate without an exception. -/
theorem matchingList_append (name : String) (dur dpc : Int) (ds a : String) (pr : Int)
    (l1 l2 : List Json) (m1 m2 : List Json)
    (h1 : matchingList name dur dpc ds a pr l1 = Except.ok m1)
    (h2 : matchingList name dur dpc ds a pr l2 = Except.ok m2) :
    matchingList name dur dpc ds a pr (l1 ++ l2) = Except.ok (m1 ++ m2) := by
  induction l1 generalizing m1 with
  | nil =>
    simp only [matchingList] at h1
    cases h1
    simpa using h2
  | cons r rs ih =>
    simp only [matchingList] at h1 ⊢
    cases hr : recMatches name dur dpc ds a pr r with
    | error e => simp [hr] at h1
    | ok b =>
      simp only [hr] at h1
      cases hrs : matchingList name dur dpc ds a pr rs with
      | error e => simp [hrs] at h1
      | ok rest =>
        simp only [hrs] at h1
        cases h1
        simp only [List.append_eq]
        rw [ih rest hrs]
        cases b <;> simp

/-! ### Concrete sample values used by the witnesses -/

/-- A sample desired record: the module defaults with `name=policy1` and an
explicit token. -/
def sampleParams : Params :=
  { access_token := some "token", name := some "policy1", policy_description := "",
    action := "forward", priority := 100, duration := 0,
    start_time := "2017-01-13T23:10:41+00:00",
    delivery_packet_count := 0, state := "present", controller := "192.0.2.1" }

/-- A controller with no existing policies that answers every write with
204. -/
def sampleEnv : Env :=
  { bigswitchToken := none,
    getResponse := { status_code := 200, json := Json.arr [] },
    putResponse := { status_code := 204, json := Json.null },
    deleteResponse := { status_code := 204, json := Json.null } }

/-- The world after the sample upsert succeeded: the controller now returns
exactly the record the upsert pushed. -/
def sampleEnvAfterPut : Env :=
  { sampleEnv with getResponse :=
      ⟨200, Json.arr ([] ++ [Json.obj (putData "policy1" "forward" "" 100 0
        "2017-01-13T23:10:41+00:00" 0)])⟩ }

/-- A controller whose listing request fails with a body carrying a
description. -/
def sampleEnvFetchFail : Env :=
  { sampleEnv with getResponse :=
      ⟨500, Json.obj [("description", Json.str "backend error")]⟩ }

/-! ### The claims -/

/-- Claim C1: an existing record counts as a match if and only if its name,
duration, delivery-packet-count, description, action, and priority each
exactly equal the desired values; the record's start-time is arbitrary and
never affects the decision. -/
theorem match_iff_six_fields_eq (name policy_description action : String)
    (duration delivery_packet_count priority : Int)
    (n2 ds2 a2 : String) (d2 c2 r2 : Int) (st : Json) :
    recMatches name duration delivery_packet_count policy_description action priority
      (Json.obj [("name", Json.str n2), ("duration", Json.int d2),
        ("delivery-packet-count", Json.int c2), ("policy-description", Json.str ds2),
        ("action", Json.str a2), ("priority", Json.int r2), ("start-time", st)])
      = Except.ok true
    ↔ (n2 = name ∧ d2 = duration ∧ c2 = delivery_packet_count ∧
       ds2 = policy_description ∧ a2 = action ∧ r2 = priority) := by
  by_cases h1 : n2 = name <;> by_cases h2 : d2 = duration <;>
    by_cases h3 : c2 = delivery_packet_count <;> by_cases h4 : ds2 = policy_description <;>
    by_cases h5 : a2 = action <;> by_cases h6 : r2 = priority <;>
    simp [recMatches, jsonGet, pyEqStr, pyEqInt, List.find?, h1, h2, h3, h4, h5, h6]

/-- Claim C2: after a successful fetch, the run exits with changed=false and
issues no mutating HTTP call exactly when the desired state is present and a
match exists, or the desired state is absent and no match exists. -/
theorem unchanged_iff_reconciled (p : Params) (env : Env) (tok n : String)
    (recs m : List Json)
    (htok : resolveToken p.access_token env.bigswitchToken = Except.ok tok)
    (hname : p.name = some n)
    (hst : env.getResponse.status_code = 200)
    (hbody : env.getResponse.json = Json.arr recs)
    (hm : matchingList n p.duration p.delivery_packet_count p.policy_description
      p.action p.priority recs = Except.ok m)
    (hstate : p.state = "present" ∨ p.state = "absent") :
    ((policy p env).1 = RunResult.exitJson false ∧ mutatingCalls (policy p env).2 = [])
      ↔ ((p.state = "present" ∧ m ≠ []) ∨ (p.state = "absent" ∧ m = [])) := by
  rcases hstate with hstate | hstate <;> cases m <;>
    simp [policy, htok, hname, hst, hbody, hm, hstate, jsonElems, mutatingCalls,
      Event.isMutating, fetchTrace, pyIn_present_present, pyIn_absent_present,
      pyIn_present_absent, pyIn_absent_absent] <;>
    split <;>
    first
      | simp [mutatingCalls, Event.isMutating]
      | (split <;> simp [mutatingCalls, Event.isMutating])

/-- Witness for C2: state=absent against an empty listing is a no-op with
no mutating call. -/
theorem unchanged_iff_reconciled_witness :
    (policy { sampleParams with state := "absent" } sampleEnv).1 = RunResult.exitJson false
    ∧ mutatingCalls (policy { sampleParams with state := "absent" } sampleEnv).2 = [] :=
  (unchanged_iff_reconciled { sampleParams with state := "absent" } sampleEnv
    "token" "policy1" [] [] rfl rfl rfl rfl rfl (Or.inr rfl)).mpr (Or.inr ⟨rfl, rfl⟩)

/-- Claim C3: reconciliation is idempotent.  A present-run against a world
with no match issues the upsert and exits changed=true; once the controller
stores the pushed record, an identical second run finds a match and exits
changed=false with no mutating call. -/
theorem present_twice_idempotent (p : Params) (env1 env2 : Env) (tok1 tok2 n : String)
    (l1 : List Json)
    (htok1 : resolveToken p.access_token env1.bigswitchToken = Except.ok tok1)
    (htok2 : resolveToken p.access_token env2.bigswitchToken = Except.ok tok2)
    (hname : p.name = some n)
    (hstate : p.state = "present")
    (hst1 : env1.getResponse.status_code = 200)
    (hbody1 : env1.getResponse.json = Json.arr l1)
    (hm1 : matchingList n p.duration p.delivery_packet_count p.policy_description
      p.action p.priority l1 = Except.ok [])
    (hput : env1.putResponse.status_code = 204)
    (hst2 : env2.getResponse.status_code = 200)
    (hbody2 : env2.getResponse.json = Json.arr (l1 ++ [Json.obj (putData n p.action
      p.policy_description p.priority p.duration p.start_time p.delivery_packet_count)])) :
    policy p env1 = (RunResult.exitJson true, fetchTrace ++
        [Event.put ("policy[name=\"" ++ n ++ "\"]") (Json.obj (putData n p.action
          p.policy_description p.priority p.duration p.start_time p.delivery_packet_count))])
    ∧ policy p env2 = (RunResult.exitJson false, fetchTrace) := by
  have hm2 : matchingList n p.duration p.delivery_packet_count p.policy_description
      p.action p.priority (l1 ++ [Json.obj (putData n p.action p.policy_description
        p.priority p.duration p.start_time p.delivery_packet_count)])
      = Except.ok [Json.obj (putData n p.action p.policy_description p.priority
        p.duration p.start_time p.delivery_packet_count)] := by
    have := matchingList_append n p.duration p.delivery_packet_count p.policy_description
      p.action p.priority l1 [Json.obj (putData n p.action p.policy_description p.priority
        p.duration p.start_time p.delivery_packet_count)] [] [Json.obj (putData n p.action
        p.policy_description p.priority p.duration p.start_time p.delivery_packet_count)]
      hm1 (by simp [matchingList, recMatches_putData])
    simpa using this
  constructor
  · simp [policy, htok1, hname, hst1, hbody1, hm1, hstate, jsonElems, hput,
      pyIn_present_present, pyIn_present_absent, fetchTrace]
  · simp [policy, htok2, hname, hst2, hbody2, hm2, hstate, jsonElems,
      pyIn_present_present, pyIn_present_absent, fetchTrace]

/-- Witness for C3 at the sample record: changed=true then changed=false. -/
theorem present_twice_idempotent_witness :
    policy sampleParams sampleEnv = (RunResult.exitJson true, fetchTrace ++
      [Event.put "policy[name=\"policy1\"]" (Json.obj (putData "policy1" "forward" "" 100 0
        "2017-01-13T23:10:41+00:00" 0))])
    ∧ policy sampleParams sampleEnvAfterPut = (RunResult.exitJson false, fetchTrace) :=
  present_twice_idempotent sampleParams sampleEnv sampleEnvAfterPut "token" "token"
    "policy1" [] rfl rfl rfl rfl rfl rfl rfl rfl rfl rfl

/-- Claim C4: in a mutating branch (present with no match, or absent with a
match) the run exits changed=true exactly when the response status is 204;
on any other status it fails with a message carrying the remote-supplied
description. -/
theorem mutating_call_status (p : Params) (env : Env) (tok n : String)
    (recs m : List Json)
    (htok : resolveToken p.access_token env.bigswitchToken = Except.ok tok)
    (hname : p.name = some n)
    (hst : env.getResponse.status_code = 200)
    (hbody : env.getResponse.json = Json.arr recs)
    (hm : matchingList n p.duration p.delivery_packet_count p.policy_description
      p.action p.priority recs = Except.ok m) :
    ((p.state = "present" ∧ m = []) →
      ((policy p env).1 = RunResult.exitJson true ↔ env.putResponse.status_code = 204)
      ∧ (env.putResponse.status_code = 204 →
          policy p env = (RunResult.exitJson true, fetchTrace ++
            [Event.put ("policy[name=\"" ++ n ++ "\"]") (Json.obj (putData n p.action
              p.policy_description p.priority p.duration p.start_time p.delivery_packet_count))]))
      ∧ (env.putResponse.status_code ≠ 204 →
          ∀ d, jsonGet env.putResponse.json "description" = Except.ok d →
          policy p env = (RunResult.failJson
            ("error creating policy \x27" ++ n ++ "\x27: " ++ pyStr d), fetchTrace ++
            [Event.put ("policy[name=\"" ++ n ++ "\"]") (Json.obj (putData n p.action
              p.policy_description p.priority p.duration p.start_time p.delivery_packet_count))])))
    ∧ ((p.state = "absent" ∧ m ≠ []) →
      ((policy p env).1 = RunResult.exitJson true ↔ env.deleteResponse.status_code = 204)
      ∧ (env.deleteResponse.status_code = 204 →
          policy p env = (RunResult.exitJson true, fetchTrace ++
            [Event.delete ("policy[name=\"" ++ n ++ "\"]")]))
      ∧ (env.deleteResponse.status_code ≠ 204 →
          ∀ d, jsonGet env.deleteResponse.json "description" = Except.ok d →
          policy p env = (RunResult.failJson
            ("error deleting policy \x27" ++ n ++ "\x27: " ++ pyStr d), fetchTrace ++
            [Event.delete ("policy[name=\"" ++ n ++ "\"]")]))) := by
  constructor
  · rintro ⟨hstate, hm0⟩
    subst hm0
    refine ⟨?_, ?_, ?_⟩
    · by_cases h204 : env.putResponse.status_code = 204 <;>
        simp [policy, htok, hname, hst, hbody, hm, hstate, jsonElems, h204,
          pyIn_present_present, pyIn_present_absent, fetchTrace]
      split <;> simp
    · intro h204
      simp [policy, htok, hname, hst, hbody, hm, hstate, jsonElems, h204,
        pyIn_present_present, pyIn_present_absent, fetchTrace]
    · intro h204 d hd
      simp [policy, htok, hname, hst, hbody, hm, hstate, jsonElems, h204, hd,
        pyIn_present_present, pyIn_present_absent, fetchTrace]
  · rintro ⟨hstate, hm0⟩
    cases m with
    | nil => exact absurd rfl hm0
    | cons r rs =>
      refine ⟨?_, ?_, ?_⟩
      · by_cases h204 : env.deleteResponse.status_code = 204 <;>
          simp [policy, htok, hname, hst, hbody, hm, hstate, jsonElems, h204,
            pyIn_absent_present, pyIn_absent_absent, fetchTrace]
        split <;> simp
      · intro h204
        simp [policy, htok, hname, hst, hbody, hm, hstate, jsonElems, h204,
          pyIn_absent_present, pyIn_absent_absent, fetchTrace]
      · intro h204 d hd
        simp [policy, htok, hname, hst, hbody, hm, hstate, jsonElems, h204, hd,
          pyIn_absent_present, pyIn_absent_absent, fetchTrace]

/-- Witness for C4: the sample upsert against a 204 controller exits
changed=true. -/
theorem mutating_call_status_witness :
    policy sampleParams sampleEnv = (RunResult.exitJson true, fetchTrace ++
      [Event.put "policy[name=\"policy1\"]" (Json.obj (putData "policy1" "forward" "" 100 0
        "2017-01-13T23:10:41+00:00" 0))]) :=
  ((mutating_call_status sampleParams sampleEnv "token" "policy1" [] []
    rfl rfl rfl rfl rfl).1 ⟨rfl, rfl⟩).2.1 rfl

/-- Claim C5: if the initial fetch returns a status other than 200, no
mutating call is ever issued, and when the response body carries a
description the run fails with the fetch error carrying it. -/
theorem fetch_failure_no_mutation (p : Params) (env : Env) (tok n : String)
    (htok : resolveToken p.access_token env.bigswitchToken = Except.ok tok)
    (hname : p.name = some n)
    (hfail : env.getResponse.status_code ≠ 200) :
    mutatingCalls (policy p env).2 = []
    ∧ (∀ d, jsonGet env.getResponse.json "description" = Except.ok d →
        policy p env = (RunResult.failJson
          ("failed to obtain existing policy config: " ++ pyStr d), fetchTrace)) := by
  constructor
  · cases hd : jsonGet env.getResponse.json "description" <;>
      simp [policy, htok, hname, hfail, hd, mutatingCalls, Event.isMutating, fetchTrace]
  · intro d hd
    simp [policy, htok, hname, hfail, hd, fetchTrace]

/-- Witness for C5: a 500 on the listing fails with the remote description
and performs no mutating call. -/
theorem fetch_failure_no_mutation_witness :
    mutatingCalls (policy sampleParams sampleEnvFetchFail).2 = []
    ∧ policy sampleParams sampleEnvFetchFail = (RunResult.failJson
        ("failed to obtain existing policy config: " ++ pyStr (Json.str "backend error")),
        fetchTrace) := by
  have h := fetch_failure_no_mutation sampleParams sampleEnvFetchFail "token" "policy1"
    rfl rfl (by decide)
  exact ⟨h.1, h.2 (Json.str "backend error") rfl⟩

/-- Claim C6: every single invocation issues at most one mutating HTTP
call. -/
theorem at_most_one_mutating_call (p : Params) (env : Env) :
    (mutatingCalls (policy p env).2).length ≤ 1 := by
  unfold policy
  cases resolveToken p.access_token env.bigswitchToken with
  | error e => simp [mutatingCalls]
  | ok tok =>
    cases p.name with
    | none => simp [mutatingCalls, Event.isMutating]
    | some n =>
      by_cases hs : env.getResponse.status_code = 200
      · simp only [hs, ne_eq, not_true_eq_false, if_false, ite_false, if_neg]
        cases he : jsonElems env.getResponse.json with
        | error e => simp [he, mutatingCalls, Event.isMutating, fetchTrace]
        | ok recs =>
          cases hml : matchingList n p.duration p.delivery_packet_count p.policy_description
              p.action p.priority recs with
          | error e => simp [he, hml, mutatingCalls, Event.isMutating, fetchTrace]
          | ok m =>
            simp only [he, hml]
            repeat' split
            all_goals simp [mutatingCalls, Event.isMutating, fetchTrace]
      · simp only [hs, ne_eq, not_false_eq_true, if_true, ite_true, if_pos]
        cases hd : jsonGet env.getResponse.json "description" with
        | ok d => simp [hd, mutatingCalls, Event.isMutating, fetchTrace]
        | error e => simp [hd, mutatingCalls, Event.isMutating, fetchTrace]

/-- Claim C7: with no token parameter and no environment variable, the run
fails with the missing-credential message and its trace is empty: the
`Rest` client is never constructed and no HTTP call is issued. -/
theorem missing_token_fails_before_http (p : Params) (env : Env)
    (h1 : p.access_token = none) (h2 : env.bigswitchToken = none) :
    policy p env = (RunResult.failJson "Unable to load BIGSWITCH_ACCESS_TOKEN", []) := by
  simp [policy, resolveToken, h1, h2]

/-- Witness for C7 at the sample record. -/
theorem missing_token_fails_before_http_witness :
    policy { sampleParams with access_token := none } sampleEnv
      = (RunResult.failJson "Unable to load BIGSWITCH_ACCESS_TOKEN", []) :=
  missing_token_fails_before_http { sampleParams with access_token := none } sampleEnv rfl rfl

/-- Claim C8: an empty-string token parameter behaves exactly like an
absent one: the whole run is unchanged by replacing it with `none`, and
with the environment variable also unset the run fails with the
missing-credential message. -/
theorem empty_token_same_as_absent (p : Params) (env : Env)
    (h : p.access_token = some "") :
    policy p env = policy { p with access_token := none } env
    ∧ (env.bigswitchToken = none →
        policy p env = (RunResult.failJson "Unable to load BIGSWITCH_ACCESS_TOKEN", [])) := by
  constructor
  · simp [policy, resolveToken, h]
  · intro h2
    simp [policy, resolveToken, h, h2]

/-- Witness for C8 at the sample record. -/
theorem empty_token_same_as_absent_witness :
    policy { sampleParams with access_token := some "" } sampleEnv
      = policy { { sampleParams with access_token := some "" } with access_token := none } sampleEnv
    ∧ policy { sampleParams with access_token := some "" } sampleEnv
      = (RunResult.failJson "Unable to load BIGSWITCH_ACCESS_TOKEN", []) :=
  ⟨(empty_token_same_as_absent { sampleParams with access_token := some "" } sampleEnv rfl).1,
   (empty_token_same_as_absent { sampleParams with access_token := some "" } sampleEnv rfl).2 rfl⟩

/-- Claim C9: two invocations that differ only in start_time produce the
same exit/failure outcome and the same kinds of HTTP calls; in particular a
start-time difference alone never triggers an update. -/
theorem start_time_noninterference (p : Params) (env : Env) (s1 s2 : String) :
    (policy { p with start_time := s1 } env).1 = (policy { p with start_time := s2 } env).1
    ∧ (policy { p with start_time := s1 } env).2.map Event.kind
      = (policy { p with start_time := s2 } env).2.map Event.kind := by
  refine ⟨?_, ?_⟩ <;>
  · unfold policy
    dsimp only
    cases htok : resolveToken p.access_token env.bigswitchToken with
    | error e => simp
    | ok tok =>
      cases hname : p.name with
      | none => simp
      | some n =>
        by_cases hs : env.getResponse.status_code = 200
        · simp only [hs, ne_eq, not_true_eq_false, if_false, ite_false, if_neg]
          cases he : jsonElems env.getResponse.json with
          | error e => simp [he]
          | ok recs =>
            cases hml : matchingList n p.duration p.delivery_packet_count
                p.policy_description p.action p.priority recs with
            | error e => simp [he, hml]
            | ok m =>
              simp only [he, hml]
              repeat' split
              all_goals simp [Event.kind, fetchTrace]
        · simp [hs]

/-- A fetched record whose name differs from the desired one and which
lacks every other compared key. -/
def strayRec : Json := Json.obj [("name", Json.str "other-policy")]

/-- A controller whose listing returns only `strayRec`. -/
def strayEnv : Env :=
  { sampleEnv with getResponse := ⟨200, Json.arr [strayRec]⟩ }

/-- Counterexample to claim C10 as stated: a fetched record missing five of
the six compared keys does count as a mismatch and does not abort the run —
because its name already differs, the `and`-chain short-circuits before any
missing key is consulted, and the whole absent-run completes with
changed=false. -/
theorem missing_key_counterexample :
    recMatches "policy1" 0 0 "" "forward" 100 strayRec = Except.ok false
    ∧ mainRun { sampleParams with state := "absent" } strayEnv
      = (RunResult.exitJson false, fetchTrace) :=
  ⟨rfl, rfl⟩

/-- Claim C10 (amended): the comparison consults the six keys left to
right and short-circuits, so a missing key raises `KeyError` — aborting the
whole run with a generic terminal failure — exactly when all earlier
compared keys are present and equal to the desired values.  A record
missing `name` always aborts; a record whose name already mismatches merely
counts as a non-match; and an exception from the comparison surfaces
through `main` as a terminal failure with no mutating call issued. -/
theorem missing_key_short_circuit (name : String) (dur dpc : Int)
    (ds a : String) (pr : Int) :
    (∀ fields : List (String × Json),
      fields.find? (fun q => q.1 == "name") = none →
      recMatches name dur dpc ds a pr (Json.obj fields)
        = Except.error (PyExn.keyError "name"))
    ∧ (∀ rest : List (String × Json),
      rest.find? (fun q => q.1 == "duration") = none →
      recMatches name dur dpc ds a pr (Json.obj (("name", Json.str name) :: rest))
        = Except.error (PyExn.keyError "duration"))
    ∧ (∀ n2 : String, n2 ≠ name →
      recMatches name dur dpc ds a pr (Json.obj [("name", Json.str n2)])
        = Except.ok false)
    ∧ (∀ (p : Params) (env : Env) (tok n : String) (recs : List Json) (e : PyExn),
      resolveToken p.access_token env.bigswitchToken = Except.ok tok →
      p.name = some n →
      env.getResponse.status_code = 200 →
      env.getResponse.json = Json.arr recs →
      matchingList n p.duration p.delivery_packet_count p.policy_description
        p.action p.priority recs = Except.error e →
      mainRun p env = (RunResult.failJson (PyExn.toStr e), fetchTrace)) := by
  refine ⟨?_, ?_, ?_, ?_⟩
  · intro fields h
    simp [recMatches, jsonGet, h]
  · intro rest h
    simp [recMatches, jsonGet, pyEqStr, List.find?, h]
  · intro n2 h
    simp [recMatches, jsonGet, pyEqStr, List.find?, h]
  · intro p env tok n recs e htok hname hst hbody hml
    have hp : policy p env = (RunResult.exn e, fetchTrace) := by
      simp [policy, htok, hname, hst, hbody, jsonElems, hml, fetchTrace]
    simp [mainRun, hp]

/-- Witness for the amended C10, exercising all four parts at concrete
records. -/
theorem missing_key_short_circuit_witness :
    recMatches "p" 0 0 "" "f" 1 (Json.obj []) = Except.error (PyExn.keyError "name")
    ∧ recMatches "p" 0 0 "" "f" 1 (Json.obj [("name", Json.str "p")])
      = Except.error (PyExn.keyError "duration")
    ∧ recMatches "p" 0 0 "" "f" 1 (Json.obj [("name", Json.str "q")]) = Except.ok false
    ∧ mainRun ⟨some "t", some "p", "", "f", 1, 0, "s", 0, "present", "c"⟩
        ⟨none, ⟨200, Json.arr [Json.obj [("name", Json.str "p")]]⟩,
          ⟨204, Json.null⟩, ⟨204, Json.null⟩⟩
      = (RunResult.failJson (PyExn.toStr (PyExn.keyError "duration")), fetchTrace) :=
  ⟨(missing_key_short_circuit "p" 0 0 "" "f" 1).1 [] rfl,
   (missing_key_short_circuit "p" 0 0 "" "f" 1).2.1 [] rfl,
   (missing_key_short_circuit "p" 0 0 "" "f" 1).2.2.1 "q" (by decide),
   (missing_key_short_circuit "p" 0 0 "" "f" 1).2.2.2 _ _ "t" "p"
     [Json.obj [("name", Json.str "p")]] (PyExn.keyError "duration")
     rfl rfl rfl rfl rfl⟩

end Bigmon
